import Mathlib

/-!
Verification of the manual-instrumentation Flask to-do demo
(src/flask_demos/manual_instrumention/app.py).

The three request handlers (home, add, delete) are embedded as pure
functions from a store to a telemetry event trace, an `Except` result
(Python exceptions become `Except.error`), and the updated store.  The
startup configuration check and the OTLP header parsing are embedded
directly from the module-level code.  Strings handed to Python string
methods are modelled as `List Char`, with `pySplit` and `splitFirst`
embedding `str.split(sep)` and `str.split(sep, 1)`.
-/

namespace ManualFlaskDemo

/-- Scalar span-attribute values used by the handlers (string, int, bool). -/
inductive AttrValue where
  | str (s : String)
  | int (n : Nat)
  | bool (b : Bool)
deriving DecidableEq, Repr

/-- Telemetry-relevant events emitted during one handler invocation, in
program order: span open/close, span attribute set, counter increment
(with its label set), and a committed database write. -/
inductive Event where
  | spanStart (name : String)
  | setAttr (key : String) (v : AttrValue)
  | counterAdd (amount : Nat) (method : String) (endpoint : String)
  | commit
  | spanEnd (name : String)
deriving DecidableEq, Repr

/-- Python exceptions that can propagate out of a handler body:
`attributeError` models reading `.description` off `None`
(app.py line 200), `storeFailure` models a failing database call. -/
inductive PyErr where
  | attributeError
  | storeFailure
deriving DecidableEq, Repr

/-- A task record: integer primary key and description text
(class Task, app.py lines 79-81). -/
structure Task where
  id : Nat
  description : String
deriving DecidableEq, Repr

/-- The task store, modelled as the list of rows in insertion order. -/
abbrev Store := List Task

/-- The response a handler returns to the router: the rendered task list
for home, or a redirect back to the home page for add and delete. -/
inductive Response where
  | render (tasks : List Task)
  | redirectHome
deriving DecidableEq, Repr

/-- `Task.query.all()`: all rows in insertion order. -/
def listAll (s : Store) : List Task := s

/-- The primary key the store assigns to the next inserted row. -/
def nextId (s : Store) : Nat := s.foldr (fun t m => max t.id m) 0 + 1

/-- `db.session.add(Task(description=d)); db.session.commit()`:
append a fresh row with the given description, verbatim. -/
def create (s : Store) (d : String) : Store := s ++ [⟨nextId s, d⟩]

/-- `Task.query.get(i)`: the row with primary key `i`, or `None`. -/
def getById (s : Store) (i : Nat) : Option Task :=
  s.find? (fun t => t.id == i)

/-- `db.session.delete(t); db.session.commit()` for the row with key `i`. -/
def deleteById (s : Store) (i : Nat) : Store :=
  s.filter (fun t => t.id != i)

/-- One handler invocation: the emitted event trace, the outcome
(normal return or propagated exception), and the store afterwards. -/
structure HandlerRun where
  events : List Event
  result : Except PyErr Response
  store : Store
deriving Repr

/-- The `with tracer.start_span(name) as span:` block: the span-start
event precedes the body trace and the span-end event is appended on
every exit, normal or exceptional, exactly once (context-manager
semantics of an OpenTelemetry span). -/
def withSpan (name : String) (s : Store)
    (body : Store → List Event × Except PyErr Response × Store) : HandlerRun :=
  let r := body s
  ⟨Event.spanStart name :: r.1 ++ [Event.spanEnd name], r.2.1, r.2.2⟩

/-- Handler for GET / (app.py lines 164-173).  `storeOk = false` models
the store collaborator call raising. -/
def home (storeOk : Bool) (s : Store) : HandlerRun :=
  withSpan "home-request" s (fun s =>
    let evs := [Event.counterAdd 1 "GET" "/"]
    if storeOk then
      let tasks := listAll s
      (evs ++ [Event.setAttr "tasks_retrieved.quantity" (AttrValue.int tasks.length)],
        Except.ok (Response.render tasks), s)
    else
      (evs, Except.error PyErr.storeFailure, s))

/-- Handler for POST /add (app.py lines 177-190): increments the counter,
records the submitted description as a span attribute, inserts the row,
and after the commit records the boolean confirmation attribute. -/
def add (storeOk : Bool) (taskDescription : String) (s : Store) : HandlerRun :=
  withSpan "add-task" s (fun s =>
    let evs := [Event.counterAdd 1 "POST" "/add",
      Event.setAttr "task_description" (AttrValue.str taskDescription)]
    if storeOk then
      (evs ++ [Event.commit, Event.setAttr "added_to_db" (AttrValue.bool true)],
        Except.ok Response.redirectHome, create s taskDescription)
    else
      (evs, Except.error PyErr.storeFailure, s))

/-- Handler for GET /delete/(id) (app.py lines 194-207): increments the
counter with the id-parameterized endpoint label, looks the row up, and
reads `.description` off the lookup result BEFORE the existence check
(line 200): when the row is absent this raises `AttributeError`. -/
def delete (storeOk : Bool) (taskId : Nat) (s : Store) : HandlerRun :=
  withSpan "delete-task" s (fun s =>
    let evs := [Event.counterAdd 1 "GET" ("/delete/" ++ toString taskId)]
    if storeOk then
      match getById s taskId with
      | none => (evs, Except.error PyErr.attributeError, s)
      | some t =>
        (evs ++ [Event.setAttr "task_to_delete" (AttrValue.str t.description),
            Event.commit, Event.setAttr "deleted_from_db" (AttrValue.bool true)],
          Except.ok Response.redirectHome, deleteById s taskId)
    else
      (evs, Except.error PyErr.storeFailure, s))

/-- Python `str.split(sep)` accumulator: splits at every separator,
keeping empty pieces. -/
def pySplitAux (sep : Char) : List Char → List Char → List (List Char)
  | [], acc => [acc.reverse]
  | c :: cs, acc =>
    if c = sep then acc.reverse :: pySplitAux sep cs []
    else pySplitAux sep cs (c :: acc)

/-- Python `str.split(sep)` on a character list. -/
def pySplit (sep : Char) (s : List Char) : List (List Char) :=
  pySplitAux sep s []

/-- Python `str.split(sep, 1)` when the separator occurs: the text before
the first separator paired with everything after it; `none` when the
separator is absent. -/
def splitFirst (sep : Char) : List Char → Option (List Char × List Char)
  | [] => none
  | c :: cs =>
    if c = sep then some ([], cs)
    else (splitFirst sep cs).map (fun p => (c :: p.1, p.2))

/-- `headers_dict` construction (app.py lines 29-31): split the header
string on commas, keep only items containing a colon, and split each
kept item at its first colon.  The Python dict is modelled as the
ordered list of key-value pairs. -/
def parseHeaders (h : List Char) : List (List Char × List Char) :=
  (pySplit ',' h).filterMap (fun item =>
    if item.contains ':' then splitFirst ':' item else none)

/-- The immutable startup configuration: collector endpoint and parsed
authentication headers. -/
structure Config where
  endpoint : String
  headersDict : List (List Char × List Char)
deriving DecidableEq, Repr

/-- Python truthiness test `not x` for an optional environment string:
true when the variable is unset or the empty string. -/
def falsy : Option String → Bool
  | none => true
  | some s => s == ""

/-- Whether an `Except` result is a success. -/
def isOk (r : Except String Config) : Bool :=
  match r with
  | Except.ok _ => true
  | Except.error _ => false

/-- Module-level startup (app.py lines 20-31): raise `ValueError` when
either environment variable is unset or empty, otherwise build the
configuration with the parsed header dictionary. -/
def startup (otlpEndpoint otlpHeaders : Option String) : Except String Config :=
  if falsy otlpEndpoint || falsy otlpHeaders then
    Except.error
      "OTEL_EXPORTER_OTLP_ENDPOINT and OTEL_EXPORTER_OTLP_HEADERS must be set in environment variables"
  else
    Except.ok ⟨otlpEndpoint.getD "", parseHeaders (otlpHeaders.getD "").toList⟩

/-- The `(amount, method, endpoint)` triples of the counter increments in
an event trace. -/
def counterEvents (evs : List Event) : List (Nat × String × String) :=
  evs.filterMap (fun e => match e with
    | Event.counterAdd n m ep => some (n, m, ep)
    | _ => none)

/-- The names of the spans opened in an event trace. -/
def spanStartNames (evs : List Event) : List String :=
  evs.filterMap (fun e => match e with
    | Event.spanStart n => some n
    | _ => none)

/-- The names of the spans closed in an event trace. -/
def spanEndNames (evs : List Event) : List String :=
  evs.filterMap (fun e => match e with
    | Event.spanEnd n => some n
    | _ => none)

/-- Claim C1 (code bug evidence): deleting an id with no matching stored
task is NOT a no-op — the handler reads `.description` off the absent
lookup result before the existence check (app.py line 200), so the
invocation propagates an `AttributeError` instead of redirecting to the
list view, and no not-found attribute is recorded; the span still
closes via the context manager. -/
theorem delete_missing_id_raises_attribute_error :
    (delete true 1 []).result = Except.error PyErr.attributeError ∧
    spanEndNames (delete true 1 []).events = ["delete-task"] :=
  ⟨rfl, rfl⟩

/-- Claim C6: for every add request whose write commits, the handler
records the submitted description as a span attribute and, after the
commit, the boolean confirmation attribute, all before the span-end
event; the full event trace is exactly this, in order. -/
theorem add_records_description_and_commit_flag (d : String) (s : Store) :
    (add true d s).events =
      [Event.spanStart "add-task",
       Event.counterAdd 1 "POST" "/add",
       Event.setAttr "task_description" (AttrValue.str d),
       Event.commit,
       Event.setAttr "added_to_db" (AttrValue.bool true),
       Event.spanEnd "add-task"] :=
  rfl

/-- Claim C10: the add operation stores the submitted description
verbatim with no validation — for every submitted string, the empty
string included, the store afterwards is the old store plus one new
task whose description equals exactly the submitted text. -/
theorem add_stores_description_verbatim (d : String) (s : Store) :
    (add true d s).store = s ++ [{ id := nextId s, description := d }] :=
  rfl

/-- Claim C8: round-trip — after adding the task described by the string
buy milk, a subsequent listAll returns a sequence containing a record
whose description equals that string. -/
theorem add_then_list_roundtrip (s : Store) :
    ∃ t ∈ listAll (add true "buy milk" s).store, t.description = "buy milk" := by
  refine ⟨⟨nextId s, "buy milk"⟩, ?_, rfl⟩
  simp [add, withSpan, create, listAll]

/-- Claim C2: every handled request — list, add, or delete, whether the
store call succeeds or fails — produces exactly one increment of the
requests counter, labeled with the request method and its endpoint
identifier (parameterized by the id for delete), and opens exactly one
span whose name matches the operation. -/
theorem handled_request_one_counter_one_span (ok : Bool) (s : Store) (d : String) (i : Nat) :
    counterEvents (home ok s).events = [(1, "GET", "/")] ∧
    spanStartNames (home ok s).events = ["home-request"] ∧
    counterEvents (add ok d s).events = [(1, "POST", "/add")] ∧
    spanStartNames (add ok d s).events = ["add-task"] ∧
    counterEvents (delete ok i s).events = [(1, "GET", "/delete/" ++ toString i)] ∧
    spanStartNames (delete ok i s).events = ["delete-task"] := by
  cases ok <;> cases h : getById s i <;>
    simp [home, add, delete, withSpan, counterEvents, spanStartNames, h]

/-- Claim C5: for every invocation of any of the three handlers, on every
exit path — normal return, a store call raising, and for delete also
the propagated attribute fault on a missing row — exactly one span-end
event is emitted, carrying the span name opened at entry. -/
theorem span_closed_exactly_once (ok : Bool) (s : Store) (d : String) (i : Nat) :
    spanEndNames (home ok s).events = ["home-request"] ∧
    spanEndNames (add ok d s).events = ["add-task"] ∧
    spanEndNames (delete ok i s).events = ["delete-task"] := by
  cases ok <;> cases h : getById s i <;>
    simp [home, add, delete, withSpan, spanEndNames, h]

/-- Claim C7: when the store collaborator call inside a handler fails,
the invocation propagates the failure, yet the counter increment with
the correct labels has already occurred, because the increment precedes
the store call in every handler. -/
theorem counter_incremented_despite_store_failure (s : Store) (d : String) (i : Nat) :
    ((home false s).result = Except.error PyErr.storeFailure ∧
      counterEvents (home false s).events = [(1, "GET", "/")]) ∧
    ((add false d s).result = Except.error PyErr.storeFailure ∧
      counterEvents (add false d s).events = [(1, "POST", "/add")]) ∧
    ((delete false i s).result = Except.error PyErr.storeFailure ∧
      counterEvents (delete false i s).events = [(1, "GET", "/delete/" ++ toString i)]) := by
  simp [home, add, delete, withSpan, counterEvents]

/-- Claim C3 counterexample: a malformed authentication header string —
non-empty but containing no key:value pair at all — does NOT make
startup fail: the colon-free item is silently dropped and startup
completes with an empty header mapping, refuting the malformed half of
the claim. -/
theorem startup_accepts_malformed_headers :
    startup (some "http://collector:4317") (some "malformed-no-colon") =
      Except.ok ⟨"http://collector:4317", []⟩ :=
  rfl

/-- Claim C3 as amended: startup succeeds exactly when both the collector
endpoint and the header string are present and non-empty; when either
is unset or empty the process raises at module load, before any request
is served, so the condition is never surfaced as a per-request error. -/
theorem startup_fatal_iff_env_missing (ep hs : Option String) :
    isOk (startup ep hs) = (!falsy ep && !falsy hs) := by
  unfold startup
  cases h1 : falsy ep <;> cases h2 : falsy hs <;> simp [isOk]

/-- Claim C4: the header string is parsed as comma-delimited key:value
pairs where the first colon splits key from value with no escaping —
for any key without a colon, splitting the item key-colon-value at the
first colon yields exactly that key and value — and in particular the
header string api-key:abc123 parses to the single mapping pair
(api-key, abc123). -/
theorem headers_first_colon_split (k v : List Char) (hk : k.contains ':' = false) :
    splitFirst ':' (k ++ ':' :: v) = some (k, v) ∧
    parseHeaders ("api-key:abc123".toList) = [("api-key".toList, "abc123".toList)] := by
  refine ⟨?_, by decide⟩
  induction k with
  | nil => simp [splitFirst]
  | cons c cs ih =>
    simp only [List.contains_cons, Bool.or_eq_false_iff, beq_eq_false_iff_ne] at hk
    have hc : c ≠ ':' := Ne.symm hk.1
    simp [splitFirst, hc, ih hk.2]

/-- Witness for headers_first_colon_split at the concrete key api-key
and value abc123. -/
theorem headers_first_colon_split_witness :
    ("api-key".toList).contains ':' = false ∧
    (splitFirst ':' ("api-key".toList ++ ':' :: "abc123".toList) =
        some ("api-key".toList, "abc123".toList) ∧
      parseHeaders ("api-key:abc123".toList) =
        [("api-key".toList, "abc123".toList)]) :=
  ⟨by decide, headers_first_colon_split "api-key".toList "abc123".toList (by decide)⟩

/-- Claim C9: header parsing silently drops every comma-separated item
that contains no colon — for any non-empty header string none of whose
items contain a colon, parsing yields the empty mapping and startup
proceeds (given any non-empty endpoint). -/
theorem colonless_items_dropped (ep hs : String) (hep : ep ≠ "") (hne : hs ≠ "")
    (hno : ∀ item ∈ pySplit ',' hs.toList, item.contains ':' = false) :
    parseHeaders hs.toList = [] ∧
    startup (some ep) (some hs) = Except.ok ⟨ep, []⟩ := by
  have hparse : parseHeaders hs.toList = [] := by
    unfold parseHeaders
    rw [List.filterMap_eq_nil_iff]
    intro item hitem
    have h := hno item hitem
    simp at h
    simp [h]
  have hparse2 : parseHeaders hs.data = [] := hparse
  have h1 : falsy (some ep) = false := by
    simp only [falsy]
    exact beq_eq_false_iff_ne.mpr hep
  have h2 : falsy (some hs) = false := by
    simp only [falsy]
    exact beq_eq_false_iff_ne.mpr hne
  refine ⟨hparse, ?_⟩
  unfold startup
  rw [h1, h2]
  simp [hparse2]

/-- Witness for colonless_items_dropped at a concrete endpoint and the
concrete two-item colon-free header string a,b. -/
theorem colonless_items_dropped_witness :
    (("http://collector:4317" : String) ≠ "" ∧ ("a,b" : String) ≠ "" ∧
      ∀ item ∈ pySplit ',' ("a,b" : String).toList, item.contains ':' = false) ∧
    (parseHeaders ("a,b" : String).toList = [] ∧
      startup (some "http://collector:4317") (some "a,b") =
        Except.ok ⟨"http://collector:4317", []⟩) :=
  ⟨⟨by decide, by decide, by decide⟩,
    colonless_items_dropped "http://collector:4317" "a,b"
      (by decide) (by decide) (by decide)⟩

end ManualFlaskDemo
